import Mathlib

/-!
Verification development for the key-tree HD key-derivation library.

The embedding models the three source files:
* src/src/derivers/bip32.ts: the BIP-32 deriver (deriveChildKey, deriveNode,
  privateKeyToEthAddress, publicKeyToEthAddress);
* the BIP-39 deriver module, which contains two versions of
  createBip39KeyFromSeed (an older tuple-returning one and the current
  SLIP10Node-returning one) plus deriveChildKey;
* the deriver index module declaring DeriveChildKeyArgs.

External cryptographic primitives (HMAC-SHA512, Keccak-256, elliptic-curve
public-key computation and point addition, the fingerprint hash) are injected
collaborators in the source; here they are fields of abstract `CryptoProvider`
and `Curve` structures, and all theorems quantify over them.

Repository code that the source imports but that is not under src/
(constants, utils, SLIP10Node, derivers/shared) is modelled from the spec;
each such definition carries a doc comment starting with
`Modelled from the spec:`.
-/

/-- Byte strings are lists of naturals (each byte in 0..255 at use sites). -/
abbrev Bytes := List Nat

/-- Big-endian interpretation of a byte string as a natural number,
mirroring bytesToBigInt from the utils module. -/
def bytesToNat (bs : Bytes) : Nat :=
  bs.foldl (fun acc b => acc * 256 + b) 0

/-- Big-endian 32-byte encoding of a natural number (scalar to key bytes). -/
def natToBytes32 (x : Nat) : Bytes :=
  (List.range 32).map (fun i => x / 256 ^ (31 - i) % 256)

/-- Modelled from the spec: BIP_32_HARDENED_OFFSET from the constants module,
the hardened offset boundary 2^31. -/
def BIP_32_HARDENED_OFFSET : Nat := 2 ^ 31

/-- Modelled from the spec: BYTES_KEY_LENGTH from the constants module,
the length of a private key in bytes. -/
def BYTES_KEY_LENGTH : Nat := 32

/-- 4-byte big-endian serialization of a child index (DataView.setUint32). -/
def serializeIndex (index : Nat) : Bytes :=
  [index / 2 ^ 24 % 256, index / 2 ^ 16 % 256, index / 2 ^ 8 % 256, index % 256]

/-- A curve descriptor: static data plus the injected curve operations.
`getPublicKey` takes the private key bytes and a compressed flag;
`publicAdd` adds a scalar tweak times the generator to a public key and
returns `none` when the resulting point is the point at infinity or the
tweak is out of range (the invalid-key outcome of public derivation). -/
structure Curve where
  name : String
  n : Nat
  secret : Bytes
  publicKeyLength : Nat
  getPublicKey : Bytes → Bool → Bytes
  publicAdd : Bytes → Nat → Option Bytes

/-- The injected cryptography provider: HMAC-SHA512, Keccak-256 and the
fingerprint hash (first four bytes of hash160 of the compressed public key,
already folded to a 32-bit value). -/
structure CryptoProvider where
  hmacSha512 : Bytes → Bytes → Bytes
  keccak256 : Bytes → Bytes
  getFingerprint : Bytes → Nat

/-- A path segment: the source accepts `Uint8Array | string`. -/
inductive PathSegment where
  | str (s : String)
  | bytes (b : Bytes)
deriving DecidableEq, Repr

/-- Network discriminator (opaque here). -/
abbrev Network := String

/-- The error outcomes of the modelled operations, one constructor per
distinct failure raised by the source or its spec-modelled collaborators. -/
inductive DerivationError where
  | invalidPathType
  | unsupportedCurve
  | missingNode
  | hardenedWithoutPrivateKey
  | invalidIndex
  | invalidChainCode
  | invalidPrivateKey
  | invalidKeyMaterial
  | invalidKeyBytes
  | invalidParameters
deriving DecidableEq, Repr

/-- A key node of the derivation tree (the SLIP10Node value object). -/
structure SLIP10Node where
  depth : Nat
  parentFingerprint : Nat
  masterFingerprint : Option Nat
  index : Nat
  chainCode : Bytes
  privateKey : Option Bytes
  publicKey : Bytes
  curveName : String
deriving DecidableEq, Repr

/-- The uniform argument record of every deriver strategy. -/
structure DeriveChildKeyArgs where
  path : PathSegment
  curve : Curve
  node : Option SLIP10Node
  network : Option Network

/-- Modelled from the spec: isValidBytesKey from the utils module — the key
has exactly the expected length and is non-zero. -/
def isValidBytesKey (key : Bytes) (expectedLength : Nat) : Bool :=
  key.length = expectedLength && key.any (fun b => b ≠ 0)

/-- Modelled from the spec: validateBIP32Index from the utils module — a
child index must satisfy 0 <= index < BIP_32_HARDENED_OFFSET, otherwise the
failure is InvalidIndex. -/
def validateBIP32Index (index : Nat) : Except DerivationError Unit :=
  if index < BIP_32_HARDENED_OFFSET then .ok () else .error .invalidIndex

/-- Modelled from the spec: the fingerprint getter of SLIP10Node — a 32-bit
value derived from a hash of the compressed public key. -/
def nodeFingerprint (provider : CryptoProvider) (node : SLIP10Node) : Nat :=
  provider.getFingerprint node.publicKey

/-- Modelled from the spec: SLIP10Node.fromExtendedKey (the SLIP10Node class
is not under src). Validates the chain code length (exactly 32 bytes) and,
when a private key is given, its length (exactly 32 bytes) and that its value
is a non-zero scalar strictly below the curve order; computes the public key
from the private key when only a private key was given. -/
def SLIP10Node.fromExtendedKey (curve : Curve) (privateKey : Option Bytes)
    (publicKey : Option Bytes) (chainCode : Bytes) (depth : Nat)
    (parentFingerprint : Nat) (masterFingerprint : Option Nat) (index : Nat) :
    Except DerivationError SLIP10Node :=
  if chainCode.length ≠ 32 then .error .invalidChainCode
  else
    match privateKey with
    | some pk =>
      if pk.length ≠ 32 then .error .invalidPrivateKey
      else if bytesToNat pk = 0 ∨ curve.n ≤ bytesToNat pk then .error .invalidPrivateKey
      else .ok ⟨depth, parentFingerprint, masterFingerprint, index, chainCode,
        some pk, curve.getPublicKey pk true, curve.name⟩
    | none =>
      match publicKey with
      | some pub => .ok ⟨depth, parentFingerprint, masterFingerprint, index,
          chainCode, none, pub, curve.name⟩
      | none => .error .invalidParameters

/-- Modelled from the spec: deriveSecretExtension from derivers/shared — the
extension of the private branch: serialize 0x00 then the private key then the
4-byte index (with the hardened offset added) when hardened, or the parent
compressed public key then the 4-byte index when normal. -/
def deriveSecretExtension (curve : Curve) (privateKey : Bytes)
    (childIndex : Nat) (isHardened : Bool) : Bytes :=
  if isHardened then
    [0] ++ privateKey ++ serializeIndex (childIndex + BIP_32_HARDENED_OFFSET)
  else
    curve.getPublicKey privateKey true ++ serializeIndex childIndex

/-- Modelled from the spec: derivePublicExtension from derivers/shared — the
parent compressed public key followed by the 4-byte index. -/
def derivePublicExtension (parentPublicKey : Bytes) (childIndex : Nat) : Bytes :=
  parentPublicKey ++ serializeIndex childIndex

/-- Modelled from the spec: generateEntropy from derivers/shared —
entropy = HMAC-SHA512 with the chain code as key and the extension as
message. -/
def generateEntropy (provider : CryptoProvider) (chainCode extension : Bytes) :
    Bytes :=
  provider.hmacSha512 chainCode extension

/-- Modelled from the spec: derivePrivateChildKey from derivers/shared — the
left 32 entropy bytes are the scalar tweak, the right bytes the new chain
code; the child scalar is parent + tweak modulo the curve order and must be
non-zero with the tweak strictly below the curve order, otherwise the
invalid-key-material outcome; the child node is built through
SLIP10Node.fromExtendedKey with depth + 1 and the index carrying the hardened
offset when hardened. -/
def derivePrivateChildKey (curve : Curve) (entropy privateKey : Bytes)
    (depth : Nat) (masterFingerprint : Option Nat)
    (parentFingerprint childIndex : Nat) (isHardened : Bool) :
    Except DerivationError SLIP10Node :=
  let tweak := bytesToNat (entropy.take 32)
  let childChainCode := entropy.drop 32
  let childKey := (bytesToNat privateKey + tweak) % curve.n
  if curve.n ≤ tweak ∨ childKey = 0 then .error .invalidKeyMaterial
  else
    SLIP10Node.fromExtendedKey curve (some (natToBytes32 childKey)) none
      childChainCode (depth + 1) parentFingerprint masterFingerprint
      (childIndex + if isHardened then BIP_32_HARDENED_OFFSET else 0)

/-- Modelled from the spec: derivePublicChildKey from derivers/shared — the
tweak (left 32 entropy bytes) is combined with the parent public key by curve
point addition; the point at infinity is the invalid-key-material outcome;
public derivation never carries the hardened offset. -/
def derivePublicChildKey (curve : Curve) (entropy publicKey : Bytes)
    (depth : Nat) (masterFingerprint : Option Nat)
    (parentFingerprint childIndex : Nat) :
    Except DerivationError SLIP10Node :=
  let tweak := bytesToNat (entropy.take 32)
  let childChainCode := entropy.drop 32
  match curve.publicAdd publicKey tweak with
  | none => .error .invalidKeyMaterial
  | some childPublicKey =>
    SLIP10Node.fromExtendedKey curve none (some childPublicKey) childChainCode
      (depth + 1) parentFingerprint masterFingerprint childIndex

/-- The private-or-public key argument union of deriveNode
(DerivePrivateKeyArgs versus DerivePublicKeyArgs in the source). -/
inductive KeyArg where
  | priv (privateKey : Bytes)
  | pub (publicKey : Bytes)
deriving DecidableEq, Repr

namespace bip32

/-- One derivation attempt: the body of the try block of deriveNode, which
dispatches on the private/public union exactly as the source does. -/
def singleAttempt (curve : Curve) (keyArg : KeyArg) (entropy : Bytes)
    (childIndex : Nat) (isHardened : Bool) (depth parentFingerprint : Nat)
    (masterFingerprint : Option Nat) : Except DerivationError SLIP10Node :=
  match keyArg with
  | .priv privateKey =>
    derivePrivateChildKey curve entropy privateKey depth masterFingerprint
      parentFingerprint childIndex isHardened
  | .pub publicKey =>
    derivePublicChildKey curve entropy publicKey depth masterFingerprint
      parentFingerprint childIndex

/-- The extension recomputed by the catch block of deriveNode, dispatching on
the private/public union exactly as the source does. -/
def extensionFor (curve : Curve) (keyArg : KeyArg) (childIndex : Nat)
    (isHardened : Bool) : Bytes :=
  match keyArg with
  | .priv privateKey => deriveSecretExtension curve privateKey childIndex isHardened
  | .pub publicKey => derivePublicExtension publicKey childIndex

/-- Fuel-indexed unfolding of the source deriveNode recursion: try one
attempt; on any thrown error (the catch in the source binds no error value)
validate childIndex + 1 and retry with recomputed extension and entropy.
The fuel only bounds the recursion; `deriveNode` supplies enough fuel for the
whole index range, so the fuel-exhaustion branch is unreachable from it. -/
def deriveNodeFuel (provider : CryptoProvider) (curve : Curve) (keyArg : KeyArg)
    (chainCode : Bytes) (isHardened : Bool) (depth parentFingerprint : Nat)
    (masterFingerprint : Option Nat) :
    Nat → Bytes → Nat → Except DerivationError SLIP10Node
  | 0, _, _ => .error .invalidIndex
  | Nat.succ fuel, entropy, childIndex =>
    match singleAttempt curve keyArg entropy childIndex isHardened depth
        parentFingerprint masterFingerprint with
    | .ok node => .ok node
    | .error _ =>
      match validateBIP32Index (childIndex + 1) with
      | .error e => .error e
      | .ok _ =>
        deriveNodeFuel provider curve keyArg chainCode isHardened depth
          parentFingerprint masterFingerprint fuel
          (generateEntropy provider chainCode
            (extensionFor curve keyArg (childIndex + 1) isHardened))
          (childIndex + 1)

/-- The source deriveNode: the recursion from `childIndex` visits at most
BIP_32_HARDENED_OFFSET - childIndex indices before validateBIP32Index stops
it, so that much fuel makes the model total without changing behaviour. -/
def deriveNode (provider : CryptoProvider) (curve : Curve) (keyArg : KeyArg)
    (chainCode : Bytes) (isHardened : Bool) (depth parentFingerprint : Nat)
    (masterFingerprint : Option Nat) (entropy : Bytes) (childIndex : Nat) :
    Except DerivationError SLIP10Node :=
  deriveNodeFuel provider curve keyArg chainCode isHardened depth
    parentFingerprint masterFingerprint
    (BIP_32_HARDENED_OFFSET - childIndex) entropy childIndex

end bip32

deriving instance DecidableEq for Except

/-- The apostrophe character (U+0027), the hardened marker of a path part. -/
def aposChar : Char := Char.ofNat 39

/-- JS path.includes of the hardened marker, on the character data. -/
def containsApos (s : String) : Bool :=
  s.data.any (fun c => c = aposChar)

/-- JS path.split on the hardened marker taken at element 0: the prefix of
the string before its first apostrophe (the whole string when none). -/
def indexPartOf (s : String) : String :=
  String.mk (s.data.takeWhile (fun c => c ≠ aposChar))

/-- The regular expression test of the source: one or more ASCII decimal
digits and nothing else. -/
def isDigits (s : String) : Bool :=
  !s.data.isEmpty && s.data.all Char.isDigit

/-- JS parseInt base 10 on an all-digit string: its decimal value. -/
def parseDecimal (s : String) : Nat :=
  s.data.foldl (fun acc c => acc * 10 + (c.toNat - 48)) 0

namespace bip32

/-- The inline index guard of the source deriveChildKey: the index part must
be all digits and its value strictly below BIP_32_HARDENED_OFFSET. -/
def segmentAccepted (path : String) : Bool :=
  isDigits (indexPartOf path) && parseDecimal (indexPartOf path) < BIP_32_HARDENED_OFFSET

/-- The tail of the source deriveChildKey after all argument validation: pick
the private branch when the parent has a private key, else the public branch,
compute extension and entropy, and enter deriveNode. -/
def deriveForNode (provider : CryptoProvider) (curve : Curve)
    (node : SLIP10Node) (isHardened : Bool) (childIndex : Nat) :
    Except DerivationError SLIP10Node :=
  match node.privateKey with
  | some privateKey =>
    let secretExtension := deriveSecretExtension curve privateKey childIndex isHardened
    let entropy := generateEntropy provider node.chainCode secretExtension
    deriveNode provider curve (KeyArg.priv privateKey) node.chainCode isHardened
      node.depth (nodeFingerprint provider node) node.masterFingerprint entropy childIndex
  | none =>
    let publicExtension := derivePublicExtension node.publicKey childIndex
    let entropy := generateEntropy provider node.chainCode publicExtension
    deriveNode provider curve (KeyArg.pub node.publicKey) node.chainCode isHardened
      node.depth (nodeFingerprint provider node) node.masterFingerprint entropy childIndex

/-- The source bip32.deriveChildKey: validate the path shape, the curve, the
presence of a parent node, the hardened/private-key exclusivity and the index
range, then derive. -/
def deriveChildKey (provider : CryptoProvider) (args : DeriveChildKeyArgs) :
    Except DerivationError SLIP10Node :=
  match args.path with
  | .bytes _ => .error .invalidPathType
  | .str path =>
    if args.curve.name ≠ "secp256k1" then .error .unsupportedCurve
    else
      match args.node with
      | none => .error .missingNode
      | some node =>
        let isHardened := containsApos path
        if isHardened && node.privateKey.isNone then
          .error .hardenedWithoutPrivateKey
        else if !segmentAccepted path then .error .invalidIndex
        else deriveForNode provider args.curve node isHardened
          (parseDecimal (indexPartOf path))

/-- The source publicKeyToEthAddress: require a non-zero key of the curve
public key length, strip the leading format byte, hash with Keccak-256 and
keep the last 20 bytes. -/
def publicKeyToEthAddress (provider : CryptoProvider) (secp256k1 : Curve)
    (key : Bytes) : Except DerivationError Bytes :=
  if !isValidBytesKey key secp256k1.publicKeyLength then .error .invalidKeyBytes
  else
    let hash := provider.keccak256 (key.drop 1)
    .ok (hash.drop (hash.length - 20))

/-- The source privateKeyToEthAddress: require a 32-byte non-zero key,
compute the uncompressed public key and convert it. -/
def privateKeyToEthAddress (provider : CryptoProvider) (secp256k1 : Curve)
    (key : Bytes) : Except DerivationError Bytes :=
  if !isValidBytesKey key BYTES_KEY_LENGTH then .error .invalidKeyBytes
  else publicKeyToEthAddress provider secp256k1 (secp256k1.getPublicKey key false)

end bip32

namespace bip39

/-- The current createBip39KeyFromSeed: one HMAC-SHA512 pass keyed by the
curve domain-separation secret, first 32 bytes the private key, the rest the
chain code, fatal range validation of the private key, then a root node via
SLIP10Node.fromExtendedKey with depth 0, parentFingerprint 0, index 0 and the
master fingerprint of its own public key. -/
def createBip39KeyFromSeed (provider : CryptoProvider) (seed : Bytes)
    (curve : Curve) : Except DerivationError SLIP10Node :=
  let key := provider.hmacSha512 curve.secret seed
  let privateKey := key.take BYTES_KEY_LENGTH
  let chainCode := key.drop BYTES_KEY_LENGTH
  if !(0 < bytesToNat privateKey && bytesToNat privateKey < curve.n) then
    .error .invalidPrivateKey
  else
    let masterFingerprint := provider.getFingerprint (curve.getPublicKey privateKey true)
    SLIP10Node.fromExtendedKey curve (some privateKey) none chainCode 0 0
      (some masterFingerprint) 0

/-- The current bip39.deriveChildKey: a fresh root from the mnemonic alone —
the seed comes from the external mnemonic-to-seed KDF applied to the path,
and only the path and curve of the arguments are consulted. -/
def deriveChildKey (provider : CryptoProvider)
    (mnemonicToSeed : PathSegment → Bytes) (args : DeriveChildKeyArgs) :
    Except DerivationError SLIP10Node :=
  createBip39KeyFromSeed provider (mnemonicToSeed args.path) args.curve

end bip39

namespace bip39v0

/-- The older tuple-returning createBip39KeyFromSeed: the same HMAC pass,
slices 0..32 and 32..64, no validation, returning private key, public key and
chain code. -/
def createBip39KeyFromSeed (provider : CryptoProvider) (seed : Bytes)
    (curve : Curve) : Bytes × Bytes × Bytes :=
  let key := provider.hmacSha512 curve.secret seed
  let privateKey := key.take 32
  (privateKey, curve.getPublicKey privateKey false, (key.drop 32).take 32)

end bip39v0

/-- The path segment grammar of the specification, written from its words for
claim C7: an unsigned decimal integer with value strictly below
BIP_32_HARDENED_OFFSET, optionally followed by one literal apostrophe and
nothing else. -/
def specSegmentGrammar (s : String) : Bool :=
  let digits := s.data.takeWhile Char.isDigit
  let rest := s.data.dropWhile Char.isDigit
  !digits.isEmpty
    && (rest.isEmpty || rest = [aposChar])
    && parseDecimal (String.mk digits) < BIP_32_HARDENED_OFFSET

namespace bip32

/-- The attempt the engine makes at index k when entropy is recomputed for k:
extension, entropy, then the single derivation attempt. -/
def attemptAt (provider : CryptoProvider) (curve : Curve) (keyArg : KeyArg)
    (chainCode : Bytes) (isHardened : Bool) (depth parentFingerprint : Nat)
    (masterFingerprint : Option Nat) (k : Nat) :
    Except DerivationError SLIP10Node :=
  singleAttempt curve keyArg
    (generateEntropy provider chainCode (extensionFor curve keyArg k isHardened))
    k isHardened depth parentFingerprint masterFingerprint

theorem singleAttempt_ok_index_mod (curve : Curve) (keyArg : KeyArg)
    (entropy : Bytes) (childIndex : Nat) (isHardened : Bool)
    (depth parentFingerprint : Nat) (masterFingerprint : Option Nat)
    (node : SLIP10Node) (hidx : childIndex < BIP_32_HARDENED_OFFSET)
    (hok : singleAttempt curve keyArg entropy childIndex isHardened depth
      parentFingerprint masterFingerprint = .ok node) :
    node.index % BIP_32_HARDENED_OFFSET = childIndex := by
  cases keyArg with
  | priv pk =>
    simp only [singleAttempt, derivePrivateChildKey, SLIP10Node.fromExtendedKey] at hok
    split at hok
    · exact absurd hok (by simp)
    · split at hok
      · exact absurd hok (by simp)
      · split at hok
        · exact absurd hok (by simp)
        · split at hok
          · exact absurd hok (by simp)
          · injection hok with h
            subst h
            cases isHardened <;> simp [Nat.mod_eq_of_lt hidx]
  | pub pub =>
    simp only [singleAttempt, derivePublicChildKey, SLIP10Node.fromExtendedKey] at hok
    split at hok
    · exact absurd hok (by simp)
    · split at hok
      · exact absurd hok (by simp)
      · injection hok with h
        subst h
        simp [Nat.mod_eq_of_lt hidx]

end bip32

namespace bip32

theorem deriveNodeFuel_shape (provider : CryptoProvider) (curve : Curve)
    (keyArg : KeyArg) (chainCode : Bytes) (isHardened : Bool)
    (depth parentFingerprint : Nat) (masterFingerprint : Option Nat) :
    ∀ (fuel : Nat) (entropy : Bytes) (childIndex : Nat),
    (∃ node, deriveNodeFuel provider curve keyArg chainCode isHardened depth
      parentFingerprint masterFingerprint fuel entropy childIndex = .ok node) ∨
    deriveNodeFuel provider curve keyArg chainCode isHardened depth
      parentFingerprint masterFingerprint fuel entropy childIndex
      = .error .invalidIndex := by
  intro fuel
  induction fuel with
  | zero => intro entropy childIndex; right; rfl
  | succ fuel ih =>
    intro entropy childIndex
    simp only [deriveNodeFuel]
    cases h : singleAttempt curve keyArg entropy childIndex isHardened depth
        parentFingerprint masterFingerprint with
    | ok node => left; exact ⟨node, by simp only [h]⟩
    | error e =>
      by_cases hv : childIndex + 1 < BIP_32_HARDENED_OFFSET
      · simp only [h, validateBIP32Index, if_pos hv]
        exact ih _ _
      · right; simp only [h, validateBIP32Index, if_neg hv]

theorem deriveNode_shape (provider : CryptoProvider) (curve : Curve)
    (keyArg : KeyArg) (chainCode : Bytes) (isHardened : Bool)
    (depth parentFingerprint : Nat) (masterFingerprint : Option Nat)
    (entropy : Bytes) (childIndex : Nat) :
    (∃ node, deriveNode provider curve keyArg chainCode isHardened depth
      parentFingerprint masterFingerprint entropy childIndex = .ok node) ∨
    deriveNode provider curve keyArg chainCode isHardened depth
      parentFingerprint masterFingerprint entropy childIndex
      = .error .invalidIndex :=
  deriveNodeFuel_shape provider curve keyArg chainCode isHardened depth
    parentFingerprint masterFingerprint _ entropy childIndex

end bip32

namespace bip32

theorem deriveNode_retry (provider : CryptoProvider) (curve : Curve)
    (keyArg : KeyArg) (chainCode : Bytes) (isHardened : Bool)
    (depth parentFingerprint : Nat) (masterFingerprint : Option Nat)
    (entropy : Bytes) (childIndex : Nat) (e : DerivationError)
    (hfail : singleAttempt curve keyArg entropy childIndex isHardened depth
      parentFingerprint masterFingerprint = .error e)
    (hlt : childIndex + 1 < BIP_32_HARDENED_OFFSET) :
    deriveNode provider curve keyArg chainCode isHardened depth
      parentFingerprint masterFingerprint entropy childIndex
    = deriveNode provider curve keyArg chainCode isHardened depth
        parentFingerprint masterFingerprint
        (generateEntropy provider chainCode
          (extensionFor curve keyArg (childIndex + 1) isHardened))
        (childIndex + 1) := by
  have hfe : BIP_32_HARDENED_OFFSET - childIndex
      = Nat.succ (BIP_32_HARDENED_OFFSET - (childIndex + 1)) := by omega
  simp only [deriveNode, hfe, deriveNodeFuel, hfail, validateBIP32Index,
    if_pos hlt]

theorem deriveNode_exhaust (provider : CryptoProvider) (curve : Curve)
    (keyArg : KeyArg) (chainCode : Bytes) (isHardened : Bool)
    (depth parentFingerprint : Nat) (masterFingerprint : Option Nat)
    (entropy : Bytes) (childIndex : Nat) (e : DerivationError)
    (hfail : singleAttempt curve keyArg entropy childIndex isHardened depth
      parentFingerprint masterFingerprint = .error e)
    (heq : childIndex + 1 = BIP_32_HARDENED_OFFSET) :
    deriveNode provider curve keyArg chainCode isHardened depth
      parentFingerprint masterFingerprint entropy childIndex
    = .error .invalidIndex := by
  have hfe : BIP_32_HARDENED_OFFSET - childIndex = Nat.succ 0 := by omega
  have hnlt : ¬childIndex + 1 < BIP_32_HARDENED_OFFSET := by omega
  simp only [deriveNode, hfe, deriveNodeFuel, hfail, validateBIP32Index,
    if_neg hnlt]

end bip32

namespace bip32

theorem deriveNodeFuel_ok_min (provider : CryptoProvider) (curve : Curve)
    (keyArg : KeyArg) (chainCode : Bytes) (isHardened : Bool)
    (depth parentFingerprint : Nat) (masterFingerprint : Option Nat) :
    ∀ (fuel childIndex : Nat) (node : SLIP10Node),
    childIndex < BIP_32_HARDENED_OFFSET →
    deriveNodeFuel provider curve keyArg chainCode isHardened depth
      parentFingerprint masterFingerprint fuel
      (generateEntropy provider chainCode
        (extensionFor curve keyArg childIndex isHardened)) childIndex
      = .ok node →
    childIndex ≤ node.index % BIP_32_HARDENED_OFFSET ∧
    attemptAt provider curve keyArg chainCode isHardened depth
      parentFingerprint masterFingerprint (node.index % BIP_32_HARDENED_OFFSET)
      = .ok node ∧
    ∀ k, childIndex ≤ k → k < node.index % BIP_32_HARDENED_OFFSET →
      (attemptAt provider curve keyArg chainCode isHardened depth
        parentFingerprint masterFingerprint k).isOk = false := by
  intro fuel
  induction fuel with
  | zero =>
    intro childIndex node _ hok
    exact absurd hok (by simp [deriveNodeFuel])
  | succ fuel ih =>
    intro childIndex node hidx hok
    rw [deriveNodeFuel] at hok
    cases h : singleAttempt curve keyArg
        (generateEntropy provider chainCode
          (extensionFor curve keyArg childIndex isHardened))
        childIndex isHardened depth parentFingerprint masterFingerprint with
    | ok n =>
      rw [h] at hok
      simp only at hok
      cases hok
      have hmod := singleAttempt_ok_index_mod curve keyArg _ childIndex
        isHardened depth parentFingerprint masterFingerprint node hidx h
      refine ⟨le_of_eq hmod.symm, ?_, ?_⟩
      · rw [hmod]
        simpa [attemptAt] using h
      · intro k hk1 hk2
        rw [hmod] at hk2
        omega
    | error e =>
      rw [h] at hok
      simp only at hok
      by_cases hv : childIndex + 1 < BIP_32_HARDENED_OFFSET
      · rw [validateBIP32Index, if_pos hv] at hok
        simp only at hok
        obtain ⟨h1, h2, h3⟩ := ih (childIndex + 1) node hv hok
        refine ⟨by omega, h2, ?_⟩
        intro k hk1 hk2
        rcases Nat.eq_or_lt_of_le hk1 with heq | hlt2
        · subst heq
          simp [attemptAt, h, Except.isOk, Except.toBool]
        · exact h3 k (by omega) hk2
      · rw [validateBIP32Index, if_neg hv] at hok
        simp only at hok
        exact absurd hok (by simp)

end bip32

/-- A secp256k1-shaped test curve with injected operations for concrete
instantiations. -/
def testCurve : Curve :=
  ⟨"secp256k1", 2 ^ 256,
   [66, 105, 116, 99, 111, 105, 110, 32, 115, 101, 101, 100], 65,
   fun k _ => 2 :: k, fun p t => some (p ++ [t % 256])⟩

/-- A provider whose HMAC always yields 64 zero bytes. -/
def zeroProvider : CryptoProvider :=
  ⟨fun _ _ => List.replicate 64 0, fun b => b, fun _ => 7⟩

/-- A provider whose HMAC yields a malformed 65-byte block exactly when the
message ends in byte 254 and a well-formed 64-byte block otherwise; it makes
the derivation attempt at child index 2147483646 (hardened) fail with a
chain-code validation error while the attempt at 2147483647 succeeds. -/
def cexProvider : CryptoProvider :=
  ⟨fun _ ext =>
    if ext.getLast? = some 254 then List.replicate 65 0
    else List.replicate 32 1 ++ List.replicate 32 9,
   fun b => b, fun _ => 7⟩

/-- A parent node holding the private key of value one. -/
def cexParent : SLIP10Node :=
  ⟨0, 0, none, 0, List.replicate 32 7, some (natToBytes32 1),
   2 :: natToBytes32 1, "secp256k1"⟩

/-- A hardened path part for child index 2147483646. -/
def cexPath : String := "2147483646" ++ String.mk [aposChar]

/-- Arguments requesting hardened child 2147483646 of cexParent. -/
def cexArgs : DeriveChildKeyArgs :=
  ⟨.str cexPath, testCurve, some cexParent, none⟩

/-- The node the cexProvider derivation settles on after one retry. -/
def cexChild : SLIP10Node :=
  ⟨1, 7, none, 4294967295, List.replicate 32 9,
   some (natToBytes32 (1 + bytesToNat (List.replicate 32 1))),
   2 :: natToBytes32 (1 + bytesToNat (List.replicate 32 1)), "secp256k1"⟩

/-- Claim C1: when a BIP-32 derivation attempt yields invalid key material,
deriveNode surfaces no error: it retries the whole algorithm at
childIndex + 1, with the extension and the HMAC entropy recomputed for the
new index and the hardened flag and depth preserved, recursing until a valid
key is found; and when childIndex + 1 would reach the hardened offset
boundary 2^31, the derivation instead fails with InvalidIndex. -/
theorem claim_C1 (provider : CryptoProvider) (curve : Curve) (keyArg : KeyArg)
    (chainCode : Bytes) (isHardened : Bool) (depth parentFingerprint : Nat)
    (masterFingerprint : Option Nat) (entropy : Bytes) (childIndex : Nat)
    (hfail : bip32.singleAttempt curve keyArg entropy childIndex isHardened
      depth parentFingerprint masterFingerprint
      = .error .invalidKeyMaterial) :
    (childIndex + 1 < BIP_32_HARDENED_OFFSET →
      bip32.deriveNode provider curve keyArg chainCode isHardened depth
        parentFingerprint masterFingerprint entropy childIndex
      = bip32.deriveNode provider curve keyArg chainCode isHardened depth
          parentFingerprint masterFingerprint
          (generateEntropy provider chainCode
            (bip32.extensionFor curve keyArg (childIndex + 1) isHardened))
          (childIndex + 1)) ∧
    (childIndex + 1 = BIP_32_HARDENED_OFFSET →
      bip32.deriveNode provider curve keyArg chainCode isHardened depth
        parentFingerprint masterFingerprint entropy childIndex
      = .error .invalidIndex) :=
  ⟨fun hlt => bip32.deriveNode_retry provider curve keyArg chainCode isHardened
      depth parentFingerprint masterFingerprint entropy childIndex _ hfail hlt,
   fun heq => bip32.deriveNode_exhaust provider curve keyArg chainCode
      isHardened depth parentFingerprint masterFingerprint entropy childIndex _
      hfail heq⟩

/-- Witness for C1 at the boundary: with a zero parent key and zero entropy
the candidate child scalar is zero (invalid key material) at child index
2^31 - 1, and the derivation fails with InvalidIndex. -/
theorem claim_C1_witness :
    bip32.singleAttempt testCurve (KeyArg.priv (natToBytes32 0))
      (List.replicate 64 0) (BIP_32_HARDENED_OFFSET - 1) true 0 0 none
      = .error .invalidKeyMaterial ∧
    bip32.deriveNode zeroProvider testCurve (KeyArg.priv (natToBytes32 0))
      (List.replicate 32 7) true 0 0 none (List.replicate 64 0)
      (BIP_32_HARDENED_OFFSET - 1)
      = .error .invalidIndex :=
  ⟨by decide,
   (claim_C1 zeroProvider testCurve (KeyArg.priv (natToBytes32 0))
      (List.replicate 32 7) true 0 0 none (List.replicate 64 0)
      (BIP_32_HARDENED_OFFSET - 1) (by decide)).2 (by decide)⟩

/-- Claim C2 is refuted by this closed computation: the derivation attempt at
hardened child index 2147483646 fails with a chain-code validation error — a
failure unrelated to key-material validity — yet deriveChildKey does not
propagate it: the indiscriminate catch retries with the next index and the
call returns the child at index 2147483647 + 2^31 successfully. -/
theorem claim_C2_counterexample :
    bip32.attemptAt cexProvider testCurve (KeyArg.priv (natToBytes32 1))
      (List.replicate 32 7) true 0 7 none 2147483646
      = .error .invalidChainCode ∧
    (bip32.deriveChildKey cexProvider cexArgs).map SLIP10Node.index
      = .ok 4294967295 := by
  decide

/-- Claim C2 (amended): the retry of deriveNode is triggered by EVERY failure
raised inside the single derivation attempt, not only by the
invalid-key-material outcome — the catch binds no error value and recurses
with childIndex + 1 regardless of the failure kind; only failures raised
outside the attempt (the index-range validation of the retry) surface. -/
theorem claim_C2_amended (provider : CryptoProvider) (curve : Curve)
    (keyArg : KeyArg) (chainCode : Bytes) (isHardened : Bool)
    (depth parentFingerprint : Nat) (masterFingerprint : Option Nat)
    (entropy : Bytes) (childIndex : Nat) (e : DerivationError)
    (hfail : bip32.singleAttempt curve keyArg entropy childIndex isHardened
      depth parentFingerprint masterFingerprint = .error e)
    (hlt : childIndex + 1 < BIP_32_HARDENED_OFFSET) :
    bip32.deriveNode provider curve keyArg chainCode isHardened depth
      parentFingerprint masterFingerprint entropy childIndex
    = bip32.deriveNode provider curve keyArg chainCode isHardened depth
        parentFingerprint masterFingerprint
        (generateEntropy provider chainCode
          (bip32.extensionFor curve keyArg (childIndex + 1) isHardened))
        (childIndex + 1) :=
  bip32.deriveNode_retry provider curve keyArg chainCode isHardened depth
    parentFingerprint masterFingerprint entropy childIndex e hfail hlt

/-- Witness for the amended C2: the chain-code failure at hardened index
2147483646 triggers the retry equation. -/
theorem claim_C2_amended_witness :
    bip32.singleAttempt testCurve (KeyArg.priv (natToBytes32 1))
      (List.replicate 65 0) 2147483646 true 0 7 none
      = .error .invalidChainCode ∧
    bip32.deriveNode cexProvider testCurve (KeyArg.priv (natToBytes32 1))
      (List.replicate 32 7) true 0 7 none (List.replicate 65 0) 2147483646
    = bip32.deriveNode cexProvider testCurve (KeyArg.priv (natToBytes32 1))
        (List.replicate 32 7) true 0 7 none
        (generateEntropy cexProvider (List.replicate 32 7)
          (bip32.extensionFor testCurve (KeyArg.priv (natToBytes32 1))
            2147483647 true))
        2147483647 :=
  ⟨by decide,
   claim_C2_amended cexProvider testCurve (KeyArg.priv (natToBytes32 1))
     (List.replicate 32 7) true 0 7 none (List.replicate 65 0) 2147483646
     DerivationError.invalidChainCode (by decide) (by decide)⟩

/-- Claim C3: when a derivation that started at a requested child index below
the hardened offset returns a node, the index recorded in that node taken
modulo the hardened offset is at least the requested index, the attempt at
that index (with its recomputed extension and entropy) succeeds with exactly
the returned node, and every smaller candidate from the requested index on
fails its attempt. -/
theorem claim_C3 (provider : CryptoProvider) (curve : Curve) (keyArg : KeyArg)
    (chainCode : Bytes) (isHardened : Bool) (depth parentFingerprint : Nat)
    (masterFingerprint : Option Nat) (entropy : Bytes) (childIndex : Nat)
    (node : SLIP10Node)
    (hidx : childIndex < BIP_32_HARDENED_OFFSET)
    (hent : entropy = generateEntropy provider chainCode
      (bip32.extensionFor curve keyArg childIndex isHardened))
    (hok : bip32.deriveNode provider curve keyArg chainCode isHardened depth
      parentFingerprint masterFingerprint entropy childIndex = .ok node) :
    childIndex ≤ node.index % BIP_32_HARDENED_OFFSET ∧
    bip32.attemptAt provider curve keyArg chainCode isHardened depth
      parentFingerprint masterFingerprint (node.index % BIP_32_HARDENED_OFFSET)
      = .ok node ∧
    ∀ k, childIndex ≤ k → k < node.index % BIP_32_HARDENED_OFFSET →
      (bip32.attemptAt provider curve keyArg chainCode isHardened depth
        parentFingerprint masterFingerprint k).isOk = false := by
  subst hent
  exact bip32.deriveNodeFuel_ok_min provider curve keyArg chainCode isHardened
    depth parentFingerprint masterFingerprint _ childIndex node hidx hok

/-- Witness for C3: a derivation requested at hardened index 2147483646 that
retries once and returns the node recorded at index 2^32 - 1, whose index
modulo the hardened offset is at least the requested index. -/
theorem claim_C3_witness :
    bip32.deriveNode cexProvider testCurve (KeyArg.priv (natToBytes32 1))
      (List.replicate 32 7) true 0 7 none
      (generateEntropy cexProvider (List.replicate 32 7)
        (bip32.extensionFor testCurve (KeyArg.priv (natToBytes32 1))
          2147483646 true))
      2147483646 = .ok cexChild ∧
    2147483646 ≤ cexChild.index % BIP_32_HARDENED_OFFSET :=
  ⟨by decide,
   (claim_C3 cexProvider testCurve (KeyArg.priv (natToBytes32 1))
     (List.replicate 32 7) true 0 7 none _ 2147483646 cexChild (by decide) rfl
     (by decide)).1⟩

/-- The well-formed root produced by createBip39KeyFromSeed when the HMAC
block has 64 bytes and the scalar is in range: depth 0, parent fingerprint 0,
index 0, the first 32 HMAC bytes as private key, the last 32 as chain code,
and the fingerprint of its own public key as master fingerprint. -/
theorem createBip39_ok (provider : CryptoProvider) (seed : Bytes)
    (curve : Curve)
    (hlen : (provider.hmacSha512 curve.secret seed).length = 64)
    (hlo : 0 < bytesToNat ((provider.hmacSha512 curve.secret seed).take 32))
    (hhi : bytesToNat ((provider.hmacSha512 curve.secret seed).take 32)
      < curve.n) :
    bip39.createBip39KeyFromSeed provider seed curve
      = .ok ⟨0, 0,
          some (provider.getFingerprint (curve.getPublicKey
            ((provider.hmacSha512 curve.secret seed).take 32) true)), 0,
          (provider.hmacSha512 curve.secret seed).drop 32,
          some ((provider.hmacSha512 curve.secret seed).take 32),
          curve.getPublicKey ((provider.hmacSha512 curve.secret seed).take 32)
            true,
          curve.name⟩ := by
  have hcc : ((provider.hmacSha512 curve.secret seed).drop 32).length = 32 := by
    simp [List.length_drop, hlen]
  have hpk : ((provider.hmacSha512 curve.secret seed).take 32).length = 32 := by
    simp [List.length_take, hlen]
  simp only [bip39.createBip39KeyFromSeed, BYTES_KEY_LENGTH,
    SLIP10Node.fromExtendedKey, hcc, hpk]
  rw [if_neg (by simp [hlo, hhi]), if_neg (by simp), if_neg (by omega), if_neg (by omega)]

/-- A provider whose HMAC yields the 64 bytes 1..64. -/
def seqProvider : CryptoProvider :=
  ⟨fun _ _ => (List.range 64).map (fun i => i + 1), fun b => b, fun _ => 9⟩

/-- Claim C4: createBip39KeyFromSeed keys HMAC-SHA512 with the curve
domain-separation secret over the seed, takes the first 32 bytes as private
key and the last 32 as chain code, and fails fatally with the
invalid-private-key error, with no retry, exactly when the private key as an
integer is not strictly between 0 and the curve order. -/
theorem claim_C4 (provider : CryptoProvider) (seed : Bytes) (curve : Curve)
    (hlen : (provider.hmacSha512 curve.secret seed).length = 64) :
    (0 < bytesToNat ((provider.hmacSha512 curve.secret seed).take 32) ∧
     bytesToNat ((provider.hmacSha512 curve.secret seed).take 32) < curve.n →
      bip39.createBip39KeyFromSeed provider seed curve
        = .ok ⟨0, 0,
            some (provider.getFingerprint (curve.getPublicKey
              ((provider.hmacSha512 curve.secret seed).take 32) true)), 0,
            (provider.hmacSha512 curve.secret seed).drop 32,
            some ((provider.hmacSha512 curve.secret seed).take 32),
            curve.getPublicKey ((provider.hmacSha512 curve.secret seed).take 32)
              true,
            curve.name⟩) ∧
    (¬(0 < bytesToNat ((provider.hmacSha512 curve.secret seed).take 32) ∧
       bytesToNat ((provider.hmacSha512 curve.secret seed).take 32) < curve.n) →
      bip39.createBip39KeyFromSeed provider seed curve
        = .error .invalidPrivateKey) := by
  constructor
  · rintro ⟨hlo, hhi⟩
    exact createBip39_ok provider seed curve hlen hlo hhi
  · intro h
    simp only [bip39.createBip39KeyFromSeed, BYTES_KEY_LENGTH]
    rw [if_pos (by simp; omega)]

/-- Witness for C4 with the sequence provider on a one-byte seed. -/
theorem claim_C4_witness :
    (seqProvider.hmacSha512 testCurve.secret [0]).length = 64 ∧
    bip39.createBip39KeyFromSeed seqProvider [0] testCurve
      = .ok ⟨0, 0,
          some (seqProvider.getFingerprint (testCurve.getPublicKey
            ((seqProvider.hmacSha512 testCurve.secret [0]).take 32) true)), 0,
          (seqProvider.hmacSha512 testCurve.secret [0]).drop 32,
          some ((seqProvider.hmacSha512 testCurve.secret [0]).take 32),
          testCurve.getPublicKey
            ((seqProvider.hmacSha512 testCurve.secret [0]).take 32) true,
          testCurve.name⟩ :=
  ⟨by decide,
   (claim_C4 seqProvider [0] testCurve (by decide)).1 (by decide)⟩

/-- Claim C5: every node returned by createBip39KeyFromSeed is a root with
depth 0, parent fingerprint 0, index 0 and a master fingerprint that is the
fingerprint of its own public key. -/
theorem claim_C5 (provider : CryptoProvider) (seed : Bytes) (curve : Curve)
    (node : SLIP10Node)
    (hok : bip39.createBip39KeyFromSeed provider seed curve = .ok node) :
    node.depth = 0 ∧ node.parentFingerprint = 0 ∧ node.index = 0 ∧
    node.masterFingerprint = some (provider.getFingerprint node.publicKey) := by
  simp only [bip39.createBip39KeyFromSeed, BYTES_KEY_LENGTH,
    SLIP10Node.fromExtendedKey] at hok
  split at hok
  · exact absurd hok (by simp)
  · split at hok
    · exact absurd hok (by simp)
    · split at hok
      · exact absurd hok (by simp)
      · split at hok
        · exact absurd hok (by simp)
        · cases hok
          exact ⟨rfl, rfl, rfl, rfl⟩

/-- The concrete root node of the sequence provider on a one-byte seed. -/
def c5node : SLIP10Node :=
  ⟨0, 0, some 9, 0, ((List.range 64).map (fun i => i + 1)).drop 32,
   some (((List.range 64).map (fun i => i + 1)).take 32),
   2 :: ((List.range 64).map (fun i => i + 1)).take 32, "secp256k1"⟩

/-- Witness for C5 on a concrete derivation. -/
theorem claim_C5_witness :
    bip39.createBip39KeyFromSeed seqProvider [0] testCurve = .ok c5node ∧
    c5node.depth = 0 :=
  ⟨by decide, (claim_C5 seqProvider [0] testCurve c5node (by decide)).1⟩

/-- Claim C9: on every seed and curve whose master scalar is in range (and
with a well-formed 64-byte HMAC block), the current SLIP10Node-returning
createBip39KeyFromSeed and the older tuple-returning one agree byte for byte
on the private key and the chain code. -/
theorem claim_C9 (provider : CryptoProvider) (seed : Bytes) (curve : Curve)
    (hlen : (provider.hmacSha512 curve.secret seed).length = 64)
    (hlo : 0 < bytesToNat ((provider.hmacSha512 curve.secret seed).take 32))
    (hhi : bytesToNat ((provider.hmacSha512 curve.secret seed).take 32)
      < curve.n) :
    ∃ node, bip39.createBip39KeyFromSeed provider seed curve = .ok node ∧
      node.privateKey
        = some (bip39v0.createBip39KeyFromSeed provider seed curve).1 ∧
      node.chainCode
        = (bip39v0.createBip39KeyFromSeed provider seed curve).2.2 := by
  refine ⟨_, createBip39_ok provider seed curve hlen hlo hhi, rfl, ?_⟩
  simp only [bip39v0.createBip39KeyFromSeed]
  rw [List.take_of_length_le (by simp [List.length_drop, hlen])]

/-- Witness for C9 with the sequence provider on a one-byte seed. -/
theorem claim_C9_witness :
    ∃ node, bip39.createBip39KeyFromSeed seqProvider [0] testCurve = .ok node ∧
      node.privateKey
        = some (bip39v0.createBip39KeyFromSeed seqProvider [0] testCurve).1 ∧
      node.chainCode
        = (bip39v0.createBip39KeyFromSeed seqProvider [0] testCurve).2.2 :=
  claim_C9 seqProvider [0] testCurve (by decide) (by decide) (by decide)

/-- Claim C10: the BIP-39 deriveChildKey ignores the parent node and the
network: two argument records agreeing on path and curve give identical
results. -/
theorem claim_C10 (provider : CryptoProvider)
    (mnemonicToSeed : PathSegment → Bytes) (a1 a2 : DeriveChildKeyArgs)
    (hpath : a1.path = a2.path) (hcurve : a1.curve = a2.curve) :
    bip39.deriveChildKey provider mnemonicToSeed a1
      = bip39.deriveChildKey provider mnemonicToSeed a2 := by
  simp only [bip39.deriveChildKey, hpath, hcurve]

/-- Arguments without parent state. -/
def c10args1 : DeriveChildKeyArgs :=
  ⟨.str "legal winner thank year wave", testCurve, none, none⟩

/-- The same path and curve with a parent node and a network attached. -/
def c10args2 : DeriveChildKeyArgs :=
  ⟨.str "legal winner thank year wave", testCurve, some cexParent,
   some "mainnet"⟩

/-- Witness for C10: the parent node and network fields do not influence the
BIP-39 strategy. -/
theorem claim_C10_witness :
    c10args1.path = c10args2.path ∧ c10args1.curve = c10args2.curve ∧
    bip39.deriveChildKey seqProvider (fun _ => [0]) c10args1
      = bip39.deriveChildKey seqProvider (fun _ => [0]) c10args2 :=
  ⟨rfl, rfl, claim_C10 seqProvider (fun _ => [0]) c10args1 c10args2 rfl rfl⟩

/-- A decimal digit is never the apostrophe. -/
theorem isDigit_ne_apos (c : Char) (h : c.isDigit = true) : ¬c = aposChar := by
  intro heq
  subst heq
  exact absurd h (by decide)

/-- takeWhile over a list all of whose elements satisfy the predicate,
extended by one failing element, gives back exactly the list. -/
theorem takeWhile_append_singleton {α : Type} (p : α → Bool) :
    ∀ (l : List α) (c : α), (∀ x ∈ l, p x = true) → p c = false →
    (l ++ [c]).takeWhile p = l := by
  intro l c hl hc
  induction l with
  | nil => simp [List.takeWhile_cons, hc]
  | cons a t ih =>
    have ha : p a = true := hl a (by simp)
    simp only [List.cons_append, List.takeWhile_cons, ha, if_true]
    rw [ih (fun x hx => hl x (by simp [hx]))]

/-- Every string of the spec segment grammar passes the inline index guard of
the source deriveChildKey. -/
theorem grammar_implies_accepted (s : String) :
    specSegmentGrammar s = true → bip32.segmentAccepted s = true := by
  intro h
  simp only [specSegmentGrammar, Bool.and_eq_true, Bool.or_eq_true,
    decide_eq_true_eq] at h
  obtain ⟨⟨hne, hrest⟩, hval⟩ := h
  have hdig : ∀ x ∈ s.data.takeWhile Char.isDigit, x.isDigit = true :=
    fun x hx => List.mem_takeWhile_imp hx
  have hip : s.data.takeWhile (fun c => c ≠ aposChar)
      = s.data.takeWhile Char.isDigit := by
    rcases hrest with hr | hr
    · have hr0 : s.data.dropWhile Char.isDigit = [] := by
        simpa using hr
      have hl : s.data.takeWhile Char.isDigit = s.data := by
        conv_rhs => rw [← List.takeWhile_append_dropWhile (p := Char.isDigit)
          (l := s.data)]
        rw [hr0, List.append_nil]
      rw [hl]
      rw [List.takeWhile_eq_self_iff.mpr]
      intro x hx
      have hx2 : x.isDigit = true := by
        rw [← hl] at hx
        exact hdig x hx
      simpa using isDigit_ne_apos x hx2
    · conv_lhs => rw [← List.takeWhile_append_dropWhile (p := Char.isDigit)
        (l := s.data), hr]
      exact takeWhile_append_singleton _ _ _
        (fun x hx => by simpa using isDigit_ne_apos x (hdig x hx))
        (by simp)
  simp only [bip32.segmentAccepted, indexPartOf, isDigits, hip,
    Bool.and_eq_true, decide_eq_true_eq]
  refine ⟨⟨?_, ?_⟩, hval⟩
  · simpa using hne
  · simp

namespace bip32

theorem deriveNode_ne_hardened (provider : CryptoProvider) (curve : Curve)
    (keyArg : KeyArg) (chainCode : Bytes) (isHardened : Bool)
    (depth parentFingerprint : Nat) (masterFingerprint : Option Nat)
    (entropy : Bytes) (childIndex : Nat) :
    deriveNode provider curve keyArg chainCode isHardened depth
      parentFingerprint masterFingerprint entropy childIndex
      ≠ .error .hardenedWithoutPrivateKey := by
  rcases deriveNode_shape provider curve keyArg chainCode isHardened depth
      parentFingerprint masterFingerprint entropy childIndex with ⟨n, h⟩ | h <;>
    simp [h]

theorem deriveForNode_ne_hardened (provider : CryptoProvider) (curve : Curve)
    (node : SLIP10Node) (isHardened : Bool) (childIndex : Nat) :
    deriveForNode provider curve node isHardened childIndex
      ≠ .error .hardenedWithoutPrivateKey := by
  unfold deriveForNode
  split <;> exact deriveNode_ne_hardened _ _ _ _ _ _ _ _ _ _

end bip32

/-- Claim C6: deriveChildKey of the BIP-32 strategy fails immediately — with
the invalid-parameters family of errors and no retry — when the path is not a
string, when no parent node is supplied, or when a hardened path part is
requested of a parent without a private key; and the same hardened path from
a parent that carries a private key never fails on that last check. -/
theorem claim_C6 (provider : CryptoProvider) (args : DeriveChildKeyArgs)
    (b : Bytes) (s : String) (nd : SLIP10Node) (pk : Bytes) :
    (args.path = .bytes b →
      bip32.deriveChildKey provider args = .error .invalidPathType) ∧
    (args.path = .str s → args.curve.name = "secp256k1" → args.node = none →
      bip32.deriveChildKey provider args = .error .missingNode) ∧
    (args.path = .str s → args.curve.name = "secp256k1" →
      args.node = some nd → containsApos s = true → nd.privateKey = none →
      bip32.deriveChildKey provider args
        = .error .hardenedWithoutPrivateKey) ∧
    (args.path = .str s → args.curve.name = "secp256k1" →
      args.node = some nd → containsApos s = true → nd.privateKey = some pk →
      bip32.deriveChildKey provider args
        ≠ .error .hardenedWithoutPrivateKey) := by
  refine ⟨?_, ?_, ?_, ?_⟩
  · intro hp
    simp [bip32.deriveChildKey, hp]
  · intro hp hc hn
    simp [bip32.deriveChildKey, hp, hc, hn]
  · intro hp hc hn hap hpk
    simp [bip32.deriveChildKey, hp, hc, hn, hap, hpk]
  · intro hp hc hn hap hpk
    simp only [bip32.deriveChildKey, hp, hc, hn, hap, hpk]
    rw [if_neg (by simp), if_neg (by simp [hpk])]
    by_cases hacc : bip32.segmentAccepted s
    · rw [if_neg (by simp [hacc])]
      exact bip32.deriveForNode_ne_hardened _ _ _ _ _
    · rw [if_pos (by simp [hacc])]
      simp

/-- A parent node carrying no private key. -/
def pubOnlyParent : SLIP10Node :=
  ⟨0, 0, none, 0, List.replicate 32 7, none, 2 :: natToBytes32 1, "secp256k1"⟩

/-- The hardened path part for child index 0. -/
def hardPath : String := "0" ++ String.mk [aposChar]

/-- Witness for C6 on concrete argument records. -/
theorem claim_C6_witness :
    bip32.deriveChildKey seqProvider ⟨.bytes [1], testCurve, none, none⟩
      = .error .invalidPathType ∧
    bip32.deriveChildKey seqProvider ⟨.str "0", testCurve, none, none⟩
      = .error .missingNode ∧
    bip32.deriveChildKey seqProvider
        ⟨.str hardPath, testCurve, some pubOnlyParent, none⟩
      = .error .hardenedWithoutPrivateKey ∧
    bip32.deriveChildKey seqProvider
        ⟨.str hardPath, testCurve, some cexParent, none⟩
      ≠ .error .hardenedWithoutPrivateKey :=
  ⟨(claim_C6 seqProvider ⟨.bytes [1], testCurve, none, none⟩ [1] "" cexParent
      []).1 rfl,
   (claim_C6 seqProvider ⟨.str "0", testCurve, none, none⟩ [] "0" cexParent
      []).2.1 rfl rfl rfl,
   (claim_C6 seqProvider ⟨.str hardPath, testCurve, some pubOnlyParent, none⟩
      [] hardPath pubOnlyParent []).2.2.1 rfl rfl rfl (by decide) rfl,
   (claim_C6 seqProvider ⟨.str hardPath, testCurve, some cexParent, none⟩
      [] hardPath cexParent (natToBytes32 1)).2.2.2 rfl rfl rfl (by decide)
      rfl⟩

/-- A provider whose HMAC always yields a well-formed 64-byte block, making
the first derivation attempt succeed. -/
def goodProvider : CryptoProvider :=
  ⟨fun _ _ => List.replicate 32 1 ++ List.replicate 32 9, fun b => b,
   fun _ => 7⟩

/-- A path part whose prefix before the first apostrophe is a valid index but
which carries trailing garbage after the apostrophe. -/
def c7path : String := "2147483646" ++ String.mk [aposChar] ++ "x"

/-- Arguments passing the garbage-suffixed path to a parent with a private
key. -/
def c7args : DeriveChildKeyArgs :=
  ⟨.str c7path, testCurve, some cexParent, none⟩

/-- Claim C7 is refuted by this closed computation: the path part consisting
of the digits 2147483646, an apostrophe and the letter x is not of the
grammar digits-plus-optional-apostrophe, yet deriveChildKey does not reject
it with InvalidIndex — it derives the hardened child at index
2147483646 + 2^31 successfully, because everything after the first
apostrophe is ignored. -/
theorem claim_C7_counterexample :
    specSegmentGrammar c7path = false ∧
    (bip32.deriveChildKey goodProvider c7args).map SLIP10Node.index
      = .ok 4294967294 := by
  decide

/-- Claim C7 (amended): a string path part is accepted exactly when the
prefix before its first apostrophe is a non-empty string of decimal digits
whose value is below 2^31 — characters after the first apostrophe are
ignored rather than validated; rejection is with InvalidIndex, and every
segment of the spec grammar (digits with at most one trailing apostrophe,
value below 2^31, index 2147483648 in particular rejected) is accepted. -/
theorem claim_C7_amended (provider : CryptoProvider)
    (args : DeriveChildKeyArgs) (s : String) (nd : SLIP10Node)
    (hp : args.path = .str s) (hc : args.curve.name = "secp256k1")
    (hn : args.node = some nd)
    (hh : (containsApos s && nd.privateKey.isNone) = false) :
    (bip32.segmentAccepted s = false →
      bip32.deriveChildKey provider args = .error .invalidIndex) ∧
    (bip32.segmentAccepted s = true →
      bip32.deriveChildKey provider args
        = bip32.deriveForNode provider args.curve nd (containsApos s)
            (parseDecimal (indexPartOf s))) ∧
    (specSegmentGrammar s = true → bip32.segmentAccepted s = true) := by
  refine ⟨?_, ?_, grammar_implies_accepted s⟩
  · intro hacc
    simp [bip32.deriveChildKey, hp, hc, hn, hh, hacc]
  · intro hacc
    simp [bip32.deriveChildKey, hp, hc, hn, hh, hacc]

/-- Witness for the amended C7 on the garbage-suffixed path. -/
theorem claim_C7_amended_witness :
    bip32.segmentAccepted c7path = true ∧
    bip32.deriveChildKey goodProvider c7args
      = bip32.deriveForNode goodProvider c7args.curve cexParent
          (containsApos c7path) (parseDecimal (indexPartOf c7path)) :=
  ⟨by decide,
   (claim_C7_amended goodProvider c7args c7path cexParent rfl rfl rfl
     (by decide)).2.1 (by decide)⟩

/-- Claim C8: privateKeyToEthAddress insists on a 32-byte non-zero key — a
31-byte input fails the validation — and returns the last 20 bytes of the
Keccak-256 hash of the uncompressed public key with its leading format byte
stripped; publicKeyToEthAddress applies the same strip, hash and truncation
to a 65-byte non-zero uncompressed key. -/
theorem claim_C8 (provider : CryptoProvider) (secp256k1 : Curve)
    (key key31 : Bytes)
    (hplen : secp256k1.publicKeyLength = 65)
    (hkey : isValidBytesKey key 32 = true)
    (hpub : isValidBytesKey (secp256k1.getPublicKey key false) 65 = true)
    (h31 : key31.length = 31) :
    bip32.privateKeyToEthAddress provider secp256k1 key
      = .ok ((provider.keccak256
          ((secp256k1.getPublicKey key false).drop 1)).drop
            ((provider.keccak256
              ((secp256k1.getPublicKey key false).drop 1)).length - 20)) ∧
    bip32.privateKeyToEthAddress provider secp256k1 key31
      = .error .invalidKeyBytes ∧
    bip32.publicKeyToEthAddress provider secp256k1
        (secp256k1.getPublicKey key false)
      = .ok ((provider.keccak256
          ((secp256k1.getPublicKey key false).drop 1)).drop
            ((provider.keccak256
              ((secp256k1.getPublicKey key false).drop 1)).length - 20)) := by
  have hpub65 : isValidBytesKey (secp256k1.getPublicKey key false)
      secp256k1.publicKeyLength = true := by
    rw [hplen]
    exact hpub
  refine ⟨?_, ?_, ?_⟩
  · simp [bip32.privateKeyToEthAddress, bip32.publicKeyToEthAddress,
      BYTES_KEY_LENGTH, hkey, hpub65]
  · have h32 : isValidBytesKey key31 BYTES_KEY_LENGTH = false := by
      simp [isValidBytesKey, BYTES_KEY_LENGTH, h31]
    simp [bip32.privateKeyToEthAddress, h32]
  · simp [bip32.publicKeyToEthAddress, hpub65]

/-- A curve whose public keys are 65 bytes, for the address witness. -/
def ethCurve : Curve :=
  ⟨"secp256k1", 2 ^ 256, [1], 65, fun k _ => 4 :: (k ++ k), fun _ _ => none⟩

/-- Witness for C8 with a concrete key, a concrete curve and an identity
Keccak stand-in. -/
theorem claim_C8_witness :
    isValidBytesKey (natToBytes32 1) 32 = true ∧
    (List.replicate 31 1).length = 31 ∧
    bip32.privateKeyToEthAddress seqProvider ethCurve (natToBytes32 1)
      = .ok ((seqProvider.keccak256
          ((ethCurve.getPublicKey (natToBytes32 1) false).drop 1)).drop
            ((seqProvider.keccak256
              ((ethCurve.getPublicKey (natToBytes32 1) false).drop 1)).length
              - 20)) ∧
    bip32.privateKeyToEthAddress seqProvider ethCurve (List.replicate 31 1)
      = .error .invalidKeyBytes :=
  ⟨by decide, by decide,
   (claim_C8 seqProvider ethCurve (natToBytes32 1) (List.replicate 31 1) rfl
     (by decide) (by decide) (by decide)).1,
   (claim_C8 seqProvider ethCurve (natToBytes32 1) (List.replicate 31 1) rfl
     (by decide) (by decide) (by decide)).2.1⟩
